import Mathlib

/-!
Shallow embedding of `src/ps2vcard/parsers/html.py`: the Albert class-roster
field-extraction state machine (`AlbertRosterHtmlParser`, built on Python's
`HTMLParser` and the `transitions` library's `Machine`) and the frameset
wrapper (`AlbertRosterFramesetParser`).

Modelling notes on the `transitions` library, as configured in
`AlbertRosterHtmlParser.__init__` (no `ignore_invalid_triggers`):
* firing a trigger that has no transition registered for the current state
  raises `MachineError`;
* if transitions for the trigger exist but every one's conditions fail, the
  trigger is a silent no-op (no error, state unchanged);
* transitions sharing a (state, trigger) pair are tried in the order they
  were added with `add_transition`;
* a transition runs `prepare`, checks `conditions`, runs `before`, changes
  state, runs `after`; an exception in a callback propagates to the caller.

The scratch fields set by `unpack_element` (`tag_name`, `attr_name`,
`attr_value`, `attr_value_match`) are always freshly recomputed from the
current `(tag, attr)` pair before any condition that reads them (the first
transition tried in `seeking_key` and the only conditioned transition in
`seeking_student_image` both have `prepare="unpack_element"`), so the
embedding computes them directly from the event instead of storing them.

Python `dict`s become functions into `Option`; exceptions become an
explicit error type (`Except`).
-/

/-- States of the machine, from the `states` list in
`AlbertRosterHtmlParser.__init__`. -/
inductive MState where
  | seeking_key
  | found_course_key
  | found_student_key
  | seeking_student_data
  | seeking_course_data
  | seeking_student_image
deriving DecidableEq, Repr

/-- Errors the parse can raise: `MachineError` from the `transitions`
library, Python `KeyError` (e.g. `entitydefs[name]` on an unknown name),
`ValueError` (tuple unpacking of a `split` of the wrong length), and
`AttributeError` (reading an attribute that was never assigned, e.g.
`self.subparser` when no frame matched). -/
inductive PErr where
  | machineError
  | keyError
  | valueError
  | attributeError
deriving DecidableEq, Repr

/-- The class attribute `AlbertRosterHtmlParser.student_keys_dict`. -/
def student_keys_dict : String → Option String
  | "CLASS_ROSTER_VW_EMPLID" => some "id"
  | "SCC_PRFPRIMNMVW_NAME" => some "name"
  | "DERIVED_SSSMAIL_EMAIL_ADDR" => some "email"
  | "SCC_PREF_PHN_VW_PHONE" => some "phone"
  | "PROGPLAN" => some "progplan"
  | "PROGPLAN1" => some "level"
  | "PSXLATITEM_XLATLONGNAME" => some "status"
  | _ => none

/-- The class attribute `AlbertRosterHtmlParser.course_keys_dict`. -/
def course_keys_dict : String → Option String
  | "DERIVED_SSR_FC_SSR_CLASSNAME_LONG" => some "code"
  | "DERIVED_SSR_FC_SSS_PAGE_KEYDESCR2" => some "description"
  | "DERIVED_SSR_FC_DESCR254" => some "name"
  | "MTG_INSTR$0" => some "instructor"
  | "MTG_SCHED$0" => some "schedule"
  | "MTG_LOC$0" => some "room"
  | "MTG_DATE$0" => some "dates"
  | _ => none

/-- The class attribute `AlbertRosterHtmlParser.photo_key`. -/
def photo_key : String := "win10divEMPL_PHOTO_EMPLOYEE_PHOTO"

/-- Model of Python's `html.entities.entitydefs` (an external standard-library
lookup table; the spec treats entity resolution as an external collaborator).
Only a representative subset of the 252 named HTML entities is listed; any
name outside the real table is also outside this one, which is all the
claims about unknown names need. -/
def entitydefs : String → Option String
  | "amp" => some "&"
  | "lt" => some "<"
  | "gt" => some ">"
  | "quot" => some "\""
  | "nbsp" => some " "
  | "eacute" => some "é"
  | _ => none

/-- Fuel-driven worker for `pysplit`: scan the characters left to right and
cut at each (non-overlapping, leftmost-first) occurrence of the separator.
The fuel is only a structural-recursion device; any fuel of at least the
input length gives the splitting behaviour of Python's `str.split(sep)`. -/
def pysplitAux (sep : List Char) : Nat → List Char → List (List Char)
  | _, [] => [[]]
  | 0, l => [l]
  | fuel + 1, c :: cs =>
    if sep.isPrefixOf (c :: cs) then
      [] :: pysplitAux sep fuel ((c :: cs).drop sep.length)
    else
      match pysplitAux sep fuel cs with
      | t :: ts => (c :: t) :: ts
      | [] => [[c]]

/-- Python's `str.split(sep)` for a nonempty separator, as used by
`unpack_course_description` (`.split(" | ")`) and to describe the `$`-split
shape of composite identifiers. -/
def pysplit (sep : String) (s : String) : List String :=
  (pysplitAux sep.toList (s.toList.length + 1) s.toList).map (fun l => String.mk l)

/-- Python `int` on a nonempty all-digit string (the only strings the
`(\d+)` regex group can produce); anything else has no value. -/
def digitsToNat (l : List Char) : Option Nat :=
  if l = [] then none
  else if l.all (fun c => c.isDigit) then
    some (l.foldl (fun n c => 10 * n + (c.toNat - 48)) 0)
  else none

/-- The regular-expression match `re.match("([^$]*)\$(\d+)$", value)` from
`AlbertRosterHtmlParser.unpack_element`: the value matches iff it has the
shape `base$digits` with `base` free of `$` and `digits` a nonempty digit
string; on a match it yields group 1 (the base) and group 2 parsed as a
number (`handle_student_key` / `handle_photo_key` apply `int` to group 2).
Equivalently: the value splits on `$` into exactly two parts, the second a
nonempty digit string. -/
def attr_value_match (value : String) : Option (String × Nat) :=
  match pysplit "$" value with
  | [base, digits] => (digitsToNat digits.toList).map (fun n => (base, n))
  | _ => none

/-- Functional update of a string-keyed dictionary (Python
`d[k] = v` on a `dict`). -/
def setKey (f : String → Option String) (k v : String) : String → Option String :=
  fun x => if x = k then some v else f x

/-- Functional update of one student's record inside
`student_records` (Python `self.student_records[i][k] = v` on the
`defaultdict(dict)`). -/
def setStudent (recs : Nat → String → Option String) (i : Nat) (k v : String) :
    Nat → String → Option String :=
  fun j => if j = i then setKey (recs i) k v else recs j

/-- Whether a path's first character is `/`. -/
def startsWithSlash (s : String) : Bool :=
  match s.toList with
  | '/' :: _ => true
  | _ => false

/-- Whether a path's last character is `/`. -/
def endsWithSlash (s : String) : Bool :=
  match s.toList.reverse with
  | '/' :: _ => true
  | _ => false

/-- Model of `posixpath.join` for the two-argument `os.path.join` calls in
the source: an absolute second component replaces the first; otherwise the
components are joined with a single `/` separator. -/
def joinPath (a b : String) : String :=
  if startsWithSlash b then b
  else if a = "" then b
  else if endsWithSlash a then a ++ b
  else a ++ "/" ++ b

/-- Model of `posixpath.dirname`: the prefix of the path up to its last `/`,
with trailing slashes stripped unless the prefix consists only of slashes;
`""` when the path has no `/` at all. -/
def dirname (p : String) : String :=
  match p.toList.reverse.dropWhile (fun c => c ≠ '/') with
  | [] => ""
  | rhead =>
    if rhead.all (fun c => c = '/') then String.mk rhead.reverse
    else String.mk (rhead.dropWhile (fun c => c = '/')).reverse

/-- Mutable parsing state of one `AlbertRosterHtmlParser` instance: the
machine state, the scratch fields initialised in `__init__` (`current_key`,
`current_index`, `data`) plus `albert_key` (first assigned by `store_key`;
`none` models both "never assigned" and the `None` written by
`reset_buffers`), the two result dictionaries, and `base_dir` (set by
`parse` before feeding). -/
structure ParserState where
  state : MState
  current_key : String
  current_index : Nat
  data : String
  albert_key : Option String
  course_data : String → Option String
  student_records : Nat → String → Option String
  base_dir : String

/-- The state of a fresh `AlbertRosterHtmlParser` whose `base_dir` has been
set to `bdir`, as at the start of `AlbertRosterHtmlParser.parse`. -/
def initParser (bdir : String) : ParserState :=
  { state := .seeking_key
    current_key := ""
    current_index := 0
    data := ""
    albert_key := none
    course_data := fun _ => none
    student_records := fun _ _ => none
    base_dir := bdir }

/-- The events the machine consumes, i.e. the `HTMLParser` callbacks the
source overrides: start tags (with their attribute list), character data,
named entity references, and end tags (whose tag name is unused:
`handle_endtag` ignores it). `handle_charref` only logs, so character
references are not events of the machine. -/
inductive MEvent where
  | start_tag (tag : String) (attrs : List (String × String))
  | text (s : String)
  | entityref (name : String)
  | end_tag
deriving DecidableEq, Repr

/-- The `machine_handle_attr` trigger: all transitions registered for it in
`AlbertRosterHtmlParser.__init__`, tried in registration order.

In `seeking_key` (conditions `attr_is_course_key`, `attr_is_student_key`,
`found_photo_key`, in that order, each reading the scratch of
`unpack_element`); in `found_course_key` / `found_student_key` the
unconditioned self-loop; in `seeking_student_image` the transition guarded
by `found_img_src` whose `before` is `handle_img_src`. In every other state
the trigger is unregistered, so the `transitions` library raises
`MachineError`. -/
def machine_handle_attr (tag : String) (attr : String × String)
    (s : ParserState) : Except PErr ParserState :=
  match s.state with
  | .seeking_key =>
    if attr.1 = "id" then
      match course_keys_dict attr.2 with
      | some fld =>
        -- condition `attr_is_course_key`; `before` = [`store_key`,
        -- `handle_course_key`], `dest` = `found_course_key`
        .ok { s with state := .found_course_key
                     albert_key := some attr.2
                     current_key := fld }
      | none =>
        match attr_value_match attr.2 with
        | some (base, idx) =>
          match student_keys_dict base with
          | some fld =>
            -- condition `attr_is_student_key`; `before` =
            -- `handle_student_key`, `dest` = `found_student_key`
            .ok { s with state := .found_student_key
                         current_key := fld
                         current_index := idx }
          | none =>
            if base = photo_key then
              -- condition `found_photo_key`; `before` = `handle_photo_key`,
              -- `dest` = `seeking_student_image`
              .ok { s with state := .seeking_student_image
                           current_index := idx }
            else .ok s
        | none => .ok s
    else .ok s
  | .found_course_key => .ok s
  | .found_student_key => .ok s
  | .seeking_student_image =>
    if tag = "img" ∧ attr.1 = "src" then
      -- condition `found_img_src`; `before` = `handle_img_src`,
      -- `dest` = `seeking_key` (note: `after` is `cleanup_unpack_element`,
      -- not `reset_buffers`)
      .ok { s with state := .seeking_key
                   student_records :=
                     setStudent s.student_records s.current_index "photo"
                       (joinPath s.base_dir attr.2) }
    else .ok s
  | .seeking_course_data => .error .machineError
  | .seeking_student_data => .error .machineError

/-- The `finish_handling_attrs` trigger, fired once at the end of
`handle_starttag`: moves `found_course_key → seeking_course_data` and
`found_student_key → seeking_student_data`, self-loops on `seeking_key` and
`seeking_student_image`, and is unregistered (hence `MachineError`) in the
two data-buffering states. -/
def finish_handling_attrs (s : ParserState) : Except PErr ParserState :=
  match s.state with
  | .found_course_key => .ok { s with state := .seeking_course_data }
  | .found_student_key => .ok { s with state := .seeking_student_data }
  | .seeking_key => .ok s
  | .seeking_student_image => .ok s
  | .seeking_course_data => .error .machineError
  | .seeking_student_data => .error .machineError

/-- The `machine_handle_data` trigger (`before` = `buffer_data`): appends the
character data to `self.data` in the two buffering states, self-loops in
`seeking_key`, and is unregistered elsewhere. -/
def machine_handle_data (d : String) (s : ParserState) : Except PErr ParserState :=
  match s.state with
  | .seeking_course_data => .ok { s with data := s.data ++ d }
  | .seeking_student_data => .ok { s with data := s.data ++ d }
  | .seeking_key => .ok s
  | _ => .error .machineError

/-- The `machine_handle_entityref` trigger (`before` =
`buffer_translated_entityref`, which runs `self.data += entitydefs[name]`):
in the buffering states a known name appends its translation, and an unknown
name raises `KeyError` (the lookup itself fails — the source comments flag
this as unhandled); self-loop in `seeking_key`; unregistered elsewhere. -/
def machine_handle_entityref (name : String) (s : ParserState) :
    Except PErr ParserState :=
  match s.state with
  | .seeking_course_data =>
    match entitydefs name with
    | some t => .ok { s with data := s.data ++ t }
    | none => .error .keyError
  | .seeking_student_data =>
    match entitydefs name with
    | some t => .ok { s with data := s.data ++ t }
    | none => .error .keyError
  | .seeking_key => .ok s
  | _ => .error .machineError

/-- The condition `key_is_course_description`: `self.albert_key` is a course
key whose translation is `"description"`. -/
def key_is_course_description (s : ParserState) : Bool :=
  match s.albert_key with
  | some k => course_keys_dict k = some "description"
  | none => false

/-- The `reset_buffers` callback. -/
def reset_buffers (s : ParserState) : ParserState :=
  { s with albert_key := none
           current_index := 0
           current_key := ""
           data := "" }

/-- The callback `unpack_course_description`, acting on the course
dictionary after `capture_course_data` has run: it tuple-unpacks
`self.course_data["description"].split(" | ")` into four names and stores
them under `term`, `session`, `org`, `level`. A split that does not have
exactly four parts raises `ValueError`; a missing `description` entry would
make the `defaultdict` hand back a fresh `dict`, whose missing `split`
method raises `AttributeError`. -/
def unpack_course_description (cd : String → Option String) :
    Except PErr (String → Option String) :=
  match cd "description" with
  | none => .error .attributeError
  | some desc =>
    match pysplit " | " desc with
    | [term, session, org, level] =>
      .ok (setKey (setKey (setKey (setKey cd
            "term" term) "session" session) "org" org) "level" level)
    | _ => .error .valueError

/-- The `machine_handle_endtag` trigger. From `seeking_course_data` two
transitions are registered, in order: the description special case
(condition `key_is_course_description`, `before` = [`capture_course_data`,
`unpack_course_description`]) and the plain capture (`before` =
`capture_course_data`); both have `after` = `reset_buffers` and destination
`seeking_key`. From `seeking_student_data` the capture is
`capture_student_data`. Self-loop in `seeking_key`; unregistered
elsewhere. -/
def machine_handle_endtag (s : ParserState) : Except PErr ParserState :=
  match s.state with
  | .seeking_course_data =>
    if key_is_course_description s then
      match unpack_course_description (setKey s.course_data s.current_key s.data) with
      | .ok cd => .ok (reset_buffers { s with state := .seeking_key, course_data := cd })
      | .error e => .error e
    else
      .ok (reset_buffers
        { s with state := .seeking_key
                 course_data := setKey s.course_data s.current_key s.data })
  | .seeking_student_data =>
    .ok (reset_buffers
      { s with state := .seeking_key
               student_records :=
                 setStudent s.student_records s.current_index
                   s.current_key s.data })
  | .seeking_key => .ok s
  | _ => .error .machineError

/-- `AlbertRosterHtmlParser.handle_starttag`: fires `machine_handle_attr`
for each attribute in order, then `finish_handling_attrs`. A `MachineError`
is logged and re-raised, so it still propagates. -/
def handle_starttag (tag : String) (attrs : List (String × String))
    (s : ParserState) : Except PErr ParserState := do
  let s ← attrs.foldlM (fun st a => machine_handle_attr tag a st) s
  finish_handling_attrs s

/-- Dispatch of one markup event to its `HTMLParser` handler
(`handle_starttag`, `handle_data`, `handle_entityref`, `handle_endtag`). -/
def handleEvent (s : ParserState) : MEvent → Except PErr ParserState
  | .start_tag t attrs => handle_starttag t attrs s
  | .text d => machine_handle_data d s
  | .entityref n => machine_handle_entityref n s
  | .end_tag => machine_handle_endtag s

/-- `self.feed(data)`: the tokenizer delivers the events in document order;
an exception escaping a handler aborts the feed and propagates. -/
def runEvents : List MEvent → ParserState → Except PErr ParserState
  | [], s => .ok s
  | ev :: evs, s =>
    match handleEvent s ev with
    | .ok s' => runEvents evs s'
    | .error e => .error e

/-- The extracted data of one document: the course dictionary and the
student-records dictionary (the further conversion of student records to
vCards in `student_to_vcard` is out of the specified core). -/
abbrev RosterData := (String → Option String) × (Nat → String → Option String)

/-- `AlbertRosterHtmlParser.parse` on a document given as its event stream,
after `base_dir` has been set to the document's directory: feed the events
and expose `(course_data, student_records)`. -/
def albertParse (evs : List MEvent) (bdir : String) : Except PErr RosterData :=
  match runEvents evs (initParser bdir) with
  | .ok s => .ok (s.course_data, s.student_records)
  | .error e => .error e

/-- Python `dict(attrs)` lookup: with duplicate attribute names the later
pair wins. -/
def attrDict (attrs : List (String × String)) (k : String) : Option String :=
  attrs.reverse.lookup k

/-- State of an `AlbertRosterFramesetParser`: the base directory set by
`parse`, the `roster_frame` found so far (`None` initially), and the result
of the subparser once one has run (`self.subparser` is only assigned when a
frame matches; `none` models the attribute not existing). -/
structure FramesetState where
  base_dir : String
  roster_frame : Option String
  subresult : Option RosterData

/-- `AlbertRosterFramesetParser.handle_starttag`, with document contents
supplied by `files` (a map from path to event stream, standing for the
filesystem reads). Once `roster_frame` is set, every further tag returns
immediately (first match wins). A `frame` or `iframe` tag whose `name`
attribute is `"TargetContent"` resolves the frame path against `base_dir`,
builds a fresh `AlbertRosterHtmlParser` whose `base_dir` is the frame
path's directory, and parses the frame document with it (`attr_dict["src"]`
raises `KeyError` when the matching tag has no `src`). -/
def frameset_handle_starttag (files : String → List MEvent) (tag : String)
    (attrs : List (String × String)) (st : FramesetState) :
    Except PErr FramesetState :=
  if st.roster_frame.isSome then .ok st
  else if (tag = "frame" ∨ tag = "iframe")
      ∧ attrDict attrs "name" = some "TargetContent" then
    match attrDict attrs "src" with
    | none => .error .keyError
    | some src =>
      let frame := joinPath st.base_dir src
      match albertParse (files frame) (dirname frame) with
      | .ok r => .ok { st with roster_frame := some frame, subresult := some r }
      | .error e => .error e
  else .ok st

/-- The frameset parser's event loop: only start tags do anything
(`AlbertRosterFramesetParser` overrides no other handler, and the inherited
`HTMLParser` handlers are no-ops). -/
def runFrameset (files : String → List MEvent) :
    List MEvent → FramesetState → Except PErr FramesetState
  | [], st => .ok st
  | ev :: evs, st =>
    match ev with
    | .start_tag t attrs =>
      match frameset_handle_starttag files t attrs st with
      | .ok st' => runFrameset files evs st'
      | .error e => .error e
    | _ => runFrameset files evs st

/-- `AlbertRosterFramesetParser.parse`: set `base_dir` to the input file's
directory, feed the file's events, and return the subparser's extracted
data. When no frame ever matched, `self.subparser` was never assigned and
the final attribute access raises `AttributeError`. -/
def framesetParse (files : String → List MEvent) (infile : String) :
    Except PErr RosterData :=
  match runFrameset files (files infile)
      { base_dir := dirname infile, roster_frame := none, subresult := none } with
  | .ok st =>
    match st.subresult with
    | none => .error .attributeError
    | some r => .ok r
  | .error e => .error e

/-! Inspection helpers: projections out of a parse result, used to state
properties of concrete runs without binders. -/

/-- The error a parse result carries, if it failed. -/
def errOf (r : Except PErr ParserState) : Option PErr :=
  match r with
  | .error e => some e
  | .ok _ => none

/-- The machine state of a successful parse result. -/
def stateOf (r : Except PErr ParserState) : Option MState :=
  match r with
  | .ok s => some s.state
  | .error _ => none

/-- The `current_index` of a successful parse result. -/
def curIndexOf (r : Except PErr ParserState) : Option Nat :=
  match r with
  | .ok s => some s.current_index
  | .error _ => none

/-- One course-dictionary entry of a successful parse result. -/
def courseField (r : Except PErr ParserState) (k : String) : Option String :=
  match r with
  | .ok s => s.course_data k
  | .error _ => none

/-- One student-record entry of a successful parse result. -/
def studentField (r : Except PErr ParserState) (i : Nat) (k : String) : Option String :=
  match r with
  | .ok s => s.student_records i k
  | .error _ => none

/-- A start-tag event none of whose attributes is an `img` `src` (the only
attribute that fires a transition out of `seeking_student_image`); any
other event kind does not satisfy this predicate. -/
def nonImgStartTag : MEvent → Bool
  | .start_tag t attrs =>
    attrs.all (fun a => !(decide (t = "img") && decide (a.1 = "src")))
  | _ => false

/-- A start tag that `AlbertRosterFramesetParser.handle_starttag` accepts as
the content frame: tag `frame` or `iframe` with `name` attribute
`"TargetContent"`. -/
def isTargetFrame : MEvent → Bool
  | .start_tag t attrs =>
    decide ((t = "frame" ∨ t = "iframe")
      ∧ attrDict attrs "name" = some "TargetContent")
  | _ => false

/-! Concrete fixtures used by the witness theorems. -/

/-- A parser that has just seen the photo-marker key for student 5 and is
waiting for the image tag. -/
def imgWaitState : ParserState :=
  { initParser "b" with state := .seeking_student_image, current_index := 5 }

/-- A parser about to commit the course `description` field
`"A | B | C | D"`. -/
def descCommitState : ParserState :=
  { initParser "" with
      state := .seeking_course_data
      albert_key := some "DERIVED_SSR_FC_SSS_PAGE_KEYDESCR2"
      current_key := "description"
      data := "A | B | C | D" }

/-- A parser about to commit a course `description` whose split has only
two components. -/
def descBadState : ParserState :=
  { initParser "" with
      state := .seeking_course_data
      albert_key := some "DERIVED_SSR_FC_SSS_PAGE_KEYDESCR2"
      current_key := "description"
      data := "A | B" }

/-- A parser about to commit the `name` field of student 2. -/
def studentCommitState : ParserState :=
  { initParser "" with
      state := .seeking_student_data
      current_key := "name"
      current_index := 2
      data := "Doe,Jane" }

/-- A parser about to commit the `email` field of student 4. -/
def studentEmailState : ParserState :=
  { initParser "" with
      state := .seeking_student_data
      current_key := "email"
      current_index := 4
      data := "jd123@nyu.edu"
      albert_key := some "DERIVED_SSSMAIL_EMAIL_ADDR$4" }

/-- A parser waiting for student 3's image. -/
def imgWaitState3 : ParserState :=
  { initParser "base" with state := .seeking_student_image, current_index := 3 }

/-- The state `studentEmailState` reaches on its end-tag commit. -/
def afterEmailCommit : ParserState :=
  match machine_handle_endtag studentEmailState with
  | .ok s => s
  | .error _ => studentEmailState

/-- The state `imgWaitState` reaches on `<img src="p.jpg">`. -/
def afterImgStep : ParserState :=
  match machine_handle_attr "img" ("src", "p.jpg") imgWaitState with
  | .ok s => s
  | .error _ => imgWaitState

/-- A frameset-less document set: every file is frame-free markup. -/
def noFrameFiles : String → List MEvent := fun _ =>
  [.start_tag "html" [], .start_tag "body" [("class", "roster")],
   .text "no frames here", .end_tag]

/-- Events of the child roster document used by the frameset witness: a
photo marker for student 0 followed by its image. -/
def childFrameEvents : List MEvent :=
  [.start_tag "div" [("id", "win10divEMPL_PHOTO_EMPLOYEE_PHOTO$0")],
   .start_tag "img" [("src", "p.jpg")]]

/-- A two-file document set: the top-level frameset at `site/top.html`
references `sub/child.html` in its first `TargetContent` frame and another
file in a second, ignored `TargetContent` frame. -/
def framesetFiles : String → List MEvent := fun p =>
  if p = "site/top.html" then
    [.start_tag "frameset" [("rows", "*")],
     .start_tag "frame" [("name", "TargetContent"), ("src", "sub/child.html")],
     .start_tag "frame" [("name", "TargetContent"), ("src", "other.html")]]
  else if p = "site/sub/child.html" then childFrameEvents
  else []

/-- The extracted data of the child document `site/sub/child.html`. -/
def childFrameResult : RosterData :=
  match albertParse childFrameEvents "site/sub" with
  | .ok r => r
  | .error _ => (fun _ => none, fun _ _ => none)

/-! Step lemmas about single transitions, shared by the claim theorems. -/

/-- Binding a successful `Except` computation just applies the
continuation. -/
theorem bind_ok_step {α β : Type} (a : α) (f : α → Except PErr β) :
    (Except.ok a >>= f : Except PErr β) = f a := rfl

/-- Appending to the empty string is the identity. -/
theorem str_empty_append : ∀ v : String, "" ++ v = v
  | ⟨_⟩ => rfl

/-- In `seeking_key`, an `id` attribute whose value is a course key fires
the `attr_is_course_key` transition. -/
theorem attr_course_key_step (t av fld : String) (s : ParserState)
    (hs : s.state = .seeking_key) (hk : course_keys_dict av = some fld) :
    machine_handle_attr t ("id", av) s =
      .ok { s with state := .found_course_key
                   albert_key := some av
                   current_key := fld } := by
  simp [machine_handle_attr, hs, hk]

/-- In `seeking_key`, an `id` attribute whose value is a composite over a
student key fires the `attr_is_student_key` transition. -/
theorem attr_student_key_step (t av base fld : String) (idx : Nat) (s : ParserState)
    (hs : s.state = .seeking_key) (hck : course_keys_dict av = none)
    (hm : attr_value_match av = some (base, idx))
    (hsk : student_keys_dict base = some fld) :
    machine_handle_attr t ("id", av) s =
      .ok { s with state := .found_student_key
                   current_key := fld
                   current_index := idx } := by
  simp [machine_handle_attr, hs, hck, hm, hsk]

/-- In `seeking_key`, an `id` attribute whose value is a composite over the
photo key fires the `found_photo_key` transition. -/
theorem attr_photo_key_step (t av : String) (idx : Nat) (s : ParserState)
    (hs : s.state = .seeking_key) (hck : course_keys_dict av = none)
    (hm : attr_value_match av = some (photo_key, idx)) :
    machine_handle_attr t ("id", av) s =
      .ok { s with state := .seeking_student_image
                   current_index := idx } := by
  have hsk : student_keys_dict photo_key = none := rfl
  simp [machine_handle_attr, hs, hck, hm, hsk]

/-- In `found_course_key` and `found_student_key`, every further attribute
of the tag self-loops with no effect. -/
theorem attr_selfloop (t : String) (a : String × String) (s : ParserState)
    (hs : s.state = .found_course_key ∨ s.state = .found_student_key) :
    machine_handle_attr t a s = .ok s := by
  rcases hs with h | h <;> simp [machine_handle_attr, h]

/-- Folding any remaining attribute list from `found_course_key` or
`found_student_key` is a no-op. -/
theorem foldl_attr_selfloop (t : String) (rest : List (String × String))
    (s : ParserState)
    (hs : s.state = .found_course_key ∨ s.state = .found_student_key) :
    rest.foldlM (fun st a => machine_handle_attr t a st) s = .ok s := by
  induction rest with
  | nil => rfl
  | cons a rest ih =>
    simp only [List.foldlM_cons, attr_selfloop t a s hs]
    exact ih

/-- Folding attributes of a non-`img`/`src` start tag from
`seeking_student_image` is a no-op. -/
theorem foldl_attr_image_noop (t : String) (attrs : List (String × String))
    (s : ParserState) (hs : s.state = .seeking_student_image)
    (h : ∀ a ∈ attrs, ¬(t = "img" ∧ a.1 = "src")) :
    attrs.foldlM (fun st a => machine_handle_attr t a st) s = .ok s := by
  induction attrs with
  | nil => rfl
  | cons a rest ih =>
    have ha : ¬(t = "img" ∧ a.1 = "src") := h a (by simp)
    have hstep : machine_handle_attr t a s = .ok s := by
      simp [machine_handle_attr, hs, ha]
    simp only [List.foldlM_cons, hstep, bind_ok_step]
    exact ih (fun a' ha' => h a' (by simp [ha']))

/-- C1: in a text-buffering state, an `entity_reference` whose name is not
in the named-entity table is NOT tolerated by the code:
`buffer_translated_entityref` indexes `entitydefs[name]` unguarded, so the
unknown name raises `KeyError` and aborts the parse (the claim and the spec
say it must be skipped without a fatal error). A known name, by contrast,
is decoded and buffered. -/
theorem unknown_entityref_raises_keyerror :
    errOf (runEvents [.start_tag "span" [("id", "DERIVED_SSR_FC_DESCR254")],
        .entityref "notanentity"] (initParser "")) = some .keyError
    ∧ courseField (runEvents [.start_tag "span" [("id", "DERIVED_SSR_FC_DESCR254")],
        .entityref "amp", .end_tag] (initParser "")) "name" = some "&" := by
  exact ⟨rfl, rfl⟩

/-- C2 counterexample: with the machine in `seeking_student_image`, a text
event is not a no-op — `machine_handle_data` has no transition registered
for that state, so the parse aborts with `MachineError`, contradicting the
claim that any non-`img` event just keeps the machine waiting. -/
theorem text_in_seeking_student_image_errors :
    errOf (runEvents [.start_tag "div"
        [("id", "win10divEMPL_PHOTO_EMPLOYEE_PHOTO$0")], .text " "]
      (initParser "")) = some .machineError := by
  rfl

/-- C2 (amended): in `seeking_student_image`, start-tag attributes other
than an `img` `src`, and the attributes-finished signal, are no-ops — in
particular any sequence of start tags carrying no qualifying `img` leaves
the state (and so the absent photo field) unchanged; but text,
entity-reference and end-tag events have no registered transition in this
state and raise a fatal `MachineError`. -/
theorem seeking_student_image_waits (s : ParserState)
    (hs : s.state = .seeking_student_image) :
    (∀ (t : String) (a : String × String), ¬(t = "img" ∧ a.1 = "src") →
      machine_handle_attr t a s = .ok s)
    ∧ finish_handling_attrs s = .ok s
    ∧ (∀ evs : List MEvent, (∀ ev ∈ evs, nonImgStartTag ev = true) →
      runEvents evs s = .ok s)
    ∧ (∀ d, machine_handle_data d s = .error .machineError)
    ∧ (∀ n, machine_handle_entityref n s = .error .machineError)
    ∧ machine_handle_endtag s = .error .machineError := by
  refine ⟨?_, ?_, ?_, ?_, ?_, ?_⟩
  · intro t a ha
    simp [machine_handle_attr, hs, ha]
  · simp [finish_handling_attrs, hs]
  · intro evs h
    induction evs with
    | nil => rfl
    | cons ev evs ih =>
      have hev := h ev (by simp)
      have hrest : ∀ e ∈ evs, nonImgStartTag e = true :=
        fun e he => h e (by simp [he])
      cases ev with
      | start_tag t attrs =>
        have hall : ∀ a ∈ attrs, ¬(t = "img" ∧ a.1 = "src") := by
          intro a hmem
          simp only [nonImgStartTag, List.all_eq_true] at hev
          have := hev a hmem
          simp only [Bool.not_eq_true', Bool.and_eq_false_iff,
            decide_eq_false_iff_not] at this
          rcases this with h1 | h1
          · exact fun hc => h1 hc.1
          · exact fun hc => h1 hc.2
        have hstep : handleEvent s (.start_tag t attrs) = .ok s := by
          simp only [handleEvent, handle_starttag,
            foldl_attr_image_noop t attrs s hs hall, bind_ok_step]
          simp [finish_handling_attrs, hs]
        simp only [runEvents, hstep]
        exact ih hrest
      | text d => simp [nonImgStartTag] at hev
      | entityref n => simp [nonImgStartTag] at hev
      | end_tag => simp [nonImgStartTag] at hev
  · intro d; simp [machine_handle_data, hs]
  · intro n; simp [machine_handle_entityref, hs]
  · simp [machine_handle_endtag, hs]

/-- C2 witness: at a concrete waiting state, a stray attribute and a stray
start tag are no-ops while a text event is the fatal case. -/
theorem seeking_student_image_waits_witness :
    machine_handle_attr "div" ("class", "x") imgWaitState = .ok imgWaitState
    ∧ runEvents [.start_tag "span" [("class", "y")]] imgWaitState = .ok imgWaitState
    ∧ machine_handle_data " " imgWaitState = .error .machineError := by
  have h := seeking_student_image_waits imgWaitState rfl
  exact ⟨h.1 "div" ("class", "x") (by decide),
    h.2.2.1 [.start_tag "span" [("class", "y")]] (by decide),
    h.2.2.2.1 " "⟩

/-- C3: committing a course `description` of the four-part shape adds the
`term`, `session`, `org` and `level` entries to the course record beside
the raw `description` entry, and returns the machine to `seeking_key`. -/
theorem course_description_unpack_adds_fields (s : ParserState) (a b c d : String)
    (hs : s.state = .seeking_course_data)
    (hak : s.albert_key = some "DERIVED_SSR_FC_SSS_PAGE_KEYDESCR2")
    (hck : s.current_key = "description")
    (hsplit : pysplit " | " s.data = [a, b, c, d]) :
    stateOf (machine_handle_endtag s) = some .seeking_key
    ∧ courseField (machine_handle_endtag s) "description" = some s.data
    ∧ courseField (machine_handle_endtag s) "term" = some a
    ∧ courseField (machine_handle_endtag s) "session" = some b
    ∧ courseField (machine_handle_endtag s) "org" = some c
    ∧ courseField (machine_handle_endtag s) "level" = some d := by
  have hkd : key_is_course_description s = true := by
    simp [key_is_course_description, hak, course_keys_dict]
  have hcd : setKey s.course_data s.current_key s.data "description" = some s.data := by
    simp [setKey, hck]
  simp only [machine_handle_endtag, hs, hkd, if_true, unpack_course_description,
    hcd, hsplit, stateOf, courseField, reset_buffers]
  refine ⟨?_, ?_, ?_, ?_, ?_, ?_⟩ <;> simp [setKey, hck]

/-- C3 witness: committing `"A | B | C | D"` yields `term=A`, `session=B`,
`org=C`, `level=D` next to the raw description. -/
theorem course_description_unpack_adds_fields_witness :
    stateOf (machine_handle_endtag descCommitState) = some .seeking_key
    ∧ courseField (machine_handle_endtag descCommitState) "description" = some "A | B | C | D"
    ∧ courseField (machine_handle_endtag descCommitState) "term" = some "A"
    ∧ courseField (machine_handle_endtag descCommitState) "session" = some "B"
    ∧ courseField (machine_handle_endtag descCommitState) "org" = some "C"
    ∧ courseField (machine_handle_endtag descCommitState) "level" = some "D" :=
  course_description_unpack_adds_fields descCommitState "A" "B" "C" "D"
    rfl rfl rfl (by decide)

/-- C4: committing a course `description` that does not split on `" | "`
into exactly four components raises `ValueError` (the tuple unpacking in
`unpack_course_description` fails), so the parse surfaces a data-format
error instead of returning a truncated or padded record. -/
theorem course_description_bad_split_errors (s : ParserState)
    (hs : s.state = .seeking_course_data)
    (hak : s.albert_key = some "DERIVED_SSR_FC_SSS_PAGE_KEYDESCR2")
    (hck : s.current_key = "description")
    (hbad : (pysplit " | " s.data).length ≠ 4) :
    machine_handle_endtag s = .error .valueError := by
  have hkd : key_is_course_description s = true := by
    simp [key_is_course_description, hak, course_keys_dict]
  have hcd : setKey s.course_data s.current_key s.data "description" = some s.data := by
    simp [setKey, hck]
  simp only [machine_handle_endtag, hs, hkd, if_true, unpack_course_description, hcd]
  cases hl : pysplit " | " s.data with
  | nil => simp [hl]
  | cons x1 l1 =>
    cases l1 with
    | nil => simp [hl]
    | cons x2 l2 =>
      cases l2 with
      | nil => simp [hl]
      | cons x3 l3 =>
        cases l3 with
        | nil => simp [hl]
        | cons x4 l4 =>
          cases l4 with
          | nil => rw [hl] at hbad; simp at hbad
          | cons x5 l5 => simp [hl]

/-- C4 witness: a two-part description (`"A | B"`) makes the commit fail
with `ValueError`. -/
theorem course_description_bad_split_errors_witness :
    machine_handle_endtag descBadState = .error .valueError :=
  course_description_bad_split_errors descBadState rfl rfl rfl (by decide)

/-- C5: a start tag whose first attribute matches a key and which carries
arbitrarily many further attributes (e.g. a `name` attribute repeating the
key) is processed without error — after the first match the machine
self-loops on `found_course_key` / `found_student_key` for every further
attribute — and the field then commits exactly once: the commit changes the
matched field and no other course entry. -/
theorem duplicate_key_attributes_commit_once (t k fld v : String)
    (rest : List (String × String)) (s : ParserState)
    (hs : s.state = .seeking_key) (hd : s.data = "")
    (hk : course_keys_dict k = some fld) (hfld : fld ≠ "description") :
    stateOf (handle_starttag t (("id", k) :: rest) s) = some .seeking_course_data
    ∧ courseField (runEvents [.start_tag t (("id", k) :: rest), .text v, .end_tag] s)
        fld = some v
    ∧ (∀ g, g ≠ fld →
        courseField (runEvents [.start_tag t (("id", k) :: rest), .text v, .end_tag] s) g
          = s.course_data g)
    ∧ (∀ (idv base fld2 : String) (i : Nat) (rest2 : List (String × String)),
        course_keys_dict idv = none → attr_value_match idv = some (base, i) →
        student_keys_dict base = some fld2 →
        stateOf (handle_starttag t (("id", idv) :: rest2) s) = some .seeking_student_data) := by
  have h1 := attr_course_key_step t k fld s hs hk
  have h2 := foldl_attr_selfloop t rest
    { s with state := .found_course_key, albert_key := some k, current_key := fld }
    (Or.inl rfl)
  have hstart : handle_starttag t (("id", k) :: rest) s =
      .ok { s with state := .seeking_course_data
                   albert_key := some k
                   current_key := fld } := by
    simp only [handle_starttag, List.foldlM_cons, h1, bind_ok_step, h2]
    rfl
  refine ⟨?_, ?_, ?_, ?_⟩
  · simp [stateOf, hstart]
  · simp [runEvents, handleEvent, hstart, machine_handle_data, machine_handle_endtag,
      key_is_course_description, hk, hfld, reset_buffers, courseField, setKey, hd,
      str_empty_append]
  · intro g hg
    simp [runEvents, handleEvent, hstart, machine_handle_data, machine_handle_endtag,
      key_is_course_description, hk, hfld, reset_buffers, courseField, setKey, hg]
  · intro idv base fld2 i rest2 hck hm hsk
    have h1' := attr_student_key_step t idv base fld2 i s hs hck hm hsk
    have h2' := foldl_attr_selfloop t rest2
      { s with state := .found_student_key, current_key := fld2, current_index := i }
      (Or.inr rfl)
    simp only [stateOf, handle_starttag, List.foldlM_cons, h1', bind_ok_step, h2']
    rfl

/-- C5 witness: a tag carrying both `id` and `name` with the course key for
the course `name` field commits once; the student-key variant also reaches
its data state without error. -/
theorem duplicate_key_attributes_commit_once_witness :
    stateOf (handle_starttag "span"
        [("id", "DERIVED_SSR_FC_DESCR254"), ("name", "DERIVED_SSR_FC_DESCR254")]
        (initParser "")) = some .seeking_course_data
    ∧ courseField (runEvents
        [.start_tag "span"
          [("id", "DERIVED_SSR_FC_DESCR254"), ("name", "DERIVED_SSR_FC_DESCR254")],
         .text "Calculus I", .end_tag] (initParser "")) "name" = some "Calculus I"
    ∧ courseField (runEvents
        [.start_tag "span"
          [("id", "DERIVED_SSR_FC_DESCR254"), ("name", "DERIVED_SSR_FC_DESCR254")],
         .text "Calculus I", .end_tag] (initParser "")) "code" = none
    ∧ stateOf (handle_starttag "span"
        [("id", "SCC_PRFPRIMNMVW_NAME$1"), ("name", "SCC_PRFPRIMNMVW_NAME$1")]
        (initParser "")) = some .seeking_student_data := by
  have h := duplicate_key_attributes_commit_once "span" "DERIVED_SSR_FC_DESCR254"
    "name" "Calculus I" [("name", "DERIVED_SSR_FC_DESCR254")] (initParser "")
    rfl rfl rfl (by decide)
  exact ⟨h.1, h.2.1, (h.2.2.1 "code" (by decide)).trans rfl,
    h.2.2.2 "SCC_PRFPRIMNMVW_NAME$1" "SCC_PRFPRIMNMVW_NAME" "name" 1
      [("name", "SCC_PRFPRIMNMVW_NAME$1")] (by decide) (by decide) (by decide)⟩

/-- C6: a student field commit writes exactly the record at the machine's
current index and leaves every other index untouched, and the photo commit
does the same at its current index — so commits carrying one index land in
one record, distinct indices never merge, and the parsed index is the only
datum correlating them. -/
theorem student_commits_correlate_by_index (s : ParserState) (p : String)
    (hs : s.state = .seeking_student_data)
    (t : ParserState) (ht : t.state = .seeking_student_image) :
    (studentField (machine_handle_endtag s) s.current_index s.current_key = some s.data
     ∧ ∀ j, j ≠ s.current_index → ∀ k,
        studentField (machine_handle_endtag s) j k = s.student_records j k)
    ∧ (studentField (machine_handle_attr "img" ("src", p) t) t.current_index "photo"
        = some (joinPath t.base_dir p)
       ∧ ∀ j, j ≠ t.current_index → ∀ k,
          studentField (machine_handle_attr "img" ("src", p) t) j k
            = t.student_records j k) := by
  refine ⟨⟨?_, ?_⟩, ?_, ?_⟩
  · simp [machine_handle_endtag, hs, studentField, reset_buffers, setStudent, setKey]
  · intro j hj k
    simp [machine_handle_endtag, hs, studentField, reset_buffers, setStudent, hj]
  · simp [machine_handle_attr, ht, studentField, setStudent, setKey]
  · intro j hj k
    simp [machine_handle_attr, ht, studentField, setStudent, hj]

/-- C6 witness: a `name` commit for student 2 touches only record 2, and a
photo commit for student 3 touches only record 3. -/
theorem student_commits_correlate_by_index_witness :
    studentField (machine_handle_endtag studentCommitState) 2 "name" = some "Doe,Jane"
    ∧ studentField (machine_handle_endtag studentCommitState) 9 "name" = none
    ∧ studentField (machine_handle_attr "img" ("src", "p1.jpg") imgWaitState3) 3 "photo"
        = some "base/p1.jpg"
    ∧ studentField (machine_handle_attr "img" ("src", "p1.jpg") imgWaitState3) 9 "photo"
        = none := by
  have h := student_commits_correlate_by_index studentCommitState "p1.jpg" rfl
    imgWaitState3 rfl
  exact ⟨h.1.1, (h.1.2 9 (by decide) "name").trans rfl,
    h.2.1, (h.2.2 9 (by decide) "photo").trans rfl⟩

/-- One complete student-field capture episode (key tag, text, end tag)
from the idle state: it commits `data ++ v` under the parsed index and
field, resets the buffers, and returns to `seeking_key`. -/
theorem student_field_episode (t idv base fld v : String) (i : Nat)
    (s : ParserState) (evs : List MEvent)
    (hs : s.state = .seeking_key)
    (hck : course_keys_dict idv = none)
    (hm : attr_value_match idv = some (base, i))
    (hsk : student_keys_dict base = some fld) :
    runEvents (.start_tag t [("id", idv)] :: .text v :: .end_tag :: evs) s =
      runEvents evs
        { s with state := .seeking_key
                 albert_key := none
                 current_index := 0
                 current_key := ""
                 data := ""
                 student_records := setStudent s.student_records i fld (s.data ++ v) } := by
  have h1 := attr_student_key_step t idv base fld i s hs hck hm hsk
  simp [runEvents, handleEvent, handle_starttag, List.foldlM_cons, List.foldlM_nil,
    h1, bind_ok_step, pure_bind, finish_handling_attrs,
    machine_handle_data, machine_handle_endtag, reset_buffers]

/-- One complete course-field capture episode (key tag, text, end tag) for
a non-`description` field from the idle state. -/
theorem course_field_episode (t k fld v : String) (s : ParserState) (evs : List MEvent)
    (hs : s.state = .seeking_key) (hk : course_keys_dict k = some fld)
    (hfld : fld ≠ "description") :
    runEvents (.start_tag t [("id", k)] :: .text v :: .end_tag :: evs) s =
      runEvents evs
        { s with state := .seeking_key
                 albert_key := none
                 current_index := 0
                 current_key := ""
                 data := ""
                 course_data := setKey s.course_data fld (s.data ++ v) } := by
  have h1 := attr_course_key_step t k fld s hs hk
  simp [runEvents, handleEvent, handle_starttag, List.foldlM_cons, List.foldlM_nil,
    h1, bind_ok_step, pure_bind, finish_handling_attrs,
    machine_handle_data, machine_handle_endtag, key_is_course_description, hk, hfld,
    reset_buffers]

/-- One complete photo episode (photo-marker tag, then the `img` tag) from
the idle state: it stores the resolved path under the parsed index and
returns to `seeking_key` — without resetting `current_index`. -/
theorem photo_episode (t idp p : String) (i : Nat) (s : ParserState) (evs : List MEvent)
    (hs : s.state = .seeking_key) (hcp : course_keys_dict idp = none)
    (hmp : attr_value_match idp = some (photo_key, i)) :
    runEvents (.start_tag t [("id", idp)] :: .start_tag "img" [("src", p)] :: evs) s =
      runEvents evs
        { s with state := .seeking_key
                 current_index := i
                 student_records := setStudent s.student_records i "photo"
                   (joinPath s.base_dir p) } := by
  have hpk : student_keys_dict photo_key = none := rfl
  simp [runEvents, handleEvent, handle_starttag, List.foldlM_cons, List.foldlM_nil,
    bind_ok_step, pure_bind, finish_handling_attrs, machine_handle_attr,
    hs, hcp, hmp, hpk]

/-- C10: when the same field commits twice to the same target — a student
field under one index, a course field, or the photo of one student — the
second commit overwrites the first: the final record holds exactly the most
recently committed value. -/
theorem later_commit_overwrites (t : String) (s : ParserState)
    (hs : s.state = .seeking_key)
    (idv base fld : String) (i : Nat) (v₁ v₂ : String)
    (hck : course_keys_dict idv = none)
    (hm : attr_value_match idv = some (base, i))
    (hsk : student_keys_dict base = some fld)
    (kc fldc : String) (w₁ w₂ : String) (hkc : course_keys_dict kc = some fldc)
    (hfldc : fldc ≠ "description")
    (idp : String) (j : Nat) (p₁ p₂ : String)
    (hcp : course_keys_dict idp = none)
    (hmp : attr_value_match idp = some (photo_key, j)) :
    studentField (runEvents [.start_tag t [("id", idv)], .text v₁, .end_tag,
        .start_tag t [("id", idv)], .text v₂, .end_tag] s) i fld = some v₂
    ∧ courseField (runEvents [.start_tag t [("id", kc)], .text w₁, .end_tag,
        .start_tag t [("id", kc)], .text w₂, .end_tag] s) fldc = some w₂
    ∧ studentField (runEvents [.start_tag t [("id", idp)],
        .start_tag "img" [("src", p₁)], .start_tag t [("id", idp)],
        .start_tag "img" [("src", p₂)]] s) j "photo"
        = some (joinPath s.base_dir p₂) := by
  refine ⟨?_, ?_, ?_⟩
  · rw [student_field_episode t idv base fld v₁ i s _ hs hck hm hsk,
      student_field_episode t idv base fld v₂ i _ _ rfl hck hm hsk]
    simp [runEvents, studentField, setStudent, setKey, str_empty_append]
  · rw [course_field_episode t kc fldc w₁ s _ hs hkc hfldc,
      course_field_episode t kc fldc w₂ _ _ rfl hkc hfldc]
    simp [runEvents, courseField, setKey, str_empty_append]
  · rw [photo_episode t idp p₁ j s _ hs hcp hmp,
      photo_episode t idp p₂ j _ _ rfl hcp hmp]
    simp [runEvents, studentField, setStudent, setKey]

/-- C10 witness: committing the student `name` at index 0 twice keeps the
second value, likewise a course field and a photo. -/
theorem later_commit_overwrites_witness :
    studentField (runEvents [.start_tag "span" [("id", "SCC_PRFPRIMNMVW_NAME$0")],
        .text "Doe,Jane", .end_tag,
        .start_tag "span" [("id", "SCC_PRFPRIMNMVW_NAME$0")],
        .text "Roe,Richard", .end_tag] (initParser "b")) 0 "name" = some "Roe,Richard"
    ∧ courseField (runEvents [.start_tag "span" [("id", "MTG_LOC$0")],
        .text "Room 101", .end_tag,
        .start_tag "span" [("id", "MTG_LOC$0")],
        .text "Room 202", .end_tag] (initParser "b")) "room" = some "Room 202"
    ∧ studentField (runEvents [.start_tag "div" [("id", "win10divEMPL_PHOTO_EMPLOYEE_PHOTO$0")],
        .start_tag "img" [("src", "p1.jpg")],
        .start_tag "div" [("id", "win10divEMPL_PHOTO_EMPLOYEE_PHOTO$0")],
        .start_tag "img" [("src", "p2.jpg")]] (initParser "b")) 0 "photo"
        = some "b/p2.jpg" := by
  have h := later_commit_overwrites "span" (initParser "b") rfl
    "SCC_PRFPRIMNMVW_NAME$0" "SCC_PRFPRIMNMVW_NAME" "name" 0 "Doe,Jane" "Roe,Richard"
    (by decide) (by decide) (by decide)
    "MTG_LOC$0" "room" "Room 101" "Room 202" (by decide) (by decide)
    "win10divEMPL_PHOTO_EMPLOYEE_PHOTO$0" 0 "p1.jpg" "p2.jpg"
    (by decide) (by decide)
  exact ⟨h.1, h.2.1, h.2.2⟩

/-- C9 counterexample: the `img`/`src` transition back to `seeking_key` does
NOT clear the current target index — after resolving student 5's photo the
machine is idle again but `current_index` is still 5, not the cleared value
0 (`reset_buffers` is only the `after` callback of the end-tag transitions;
the image transition's `after` is `cleanup_unpack_element`). -/
theorem img_transition_retains_index :
    stateOf (runEvents [.start_tag "div" [("id", "win10divEMPL_PHOTO_EMPLOYEE_PHOTO$5")],
        .start_tag "img" [("src", "p.jpg")]] (initParser "b")) = some .seeking_key
    ∧ curIndexOf (runEvents [.start_tag "div" [("id", "win10divEMPL_PHOTO_EMPLOYEE_PHOTO$5")],
        .start_tag "img" [("src", "p.jpg")]] (initParser "b")) = some 5 := by
  exact ⟨rfl, rfl⟩

/-- C9 (amended): the parse buffer, current field name, current index and
stored key are cleared (by `reset_buffers`) on every commit-bearing end-tag
transition from the data states back to `seeking_key`; the `img`/`src`
transition from `seeking_student_image` back to `seeking_key` clears none
of them — it carries the buffer, field name, index and stored key over
unchanged. -/
theorem buffers_cleared_on_commit_transitions (s s' : ParserState) (p : String) :
    ((s.state = .seeking_course_data ∨ s.state = .seeking_student_data) →
      machine_handle_endtag s = .ok s' →
      s'.state = .seeking_key ∧ s'.data = "" ∧ s'.current_key = ""
        ∧ s'.current_index = 0 ∧ s'.albert_key = none)
    ∧ (s.state = .seeking_student_image →
      machine_handle_attr "img" ("src", p) s = .ok s' →
      s'.state = .seeking_key ∧ s'.data = s.data ∧ s'.current_key = s.current_key
        ∧ s'.current_index = s.current_index ∧ s'.albert_key = s.albert_key) := by
  constructor
  · rintro (h | h) hok
    · rcases Bool.eq_false_or_eq_true (key_is_course_description s) with hkd | hkd
      · cases hu : unpack_course_description (setKey s.course_data s.current_key s.data) with
        | ok cd =>
          have hres : machine_handle_endtag s =
              .ok (reset_buffers { s with state := .seeking_key, course_data := cd }) := by
            simp [machine_handle_endtag, h, hkd, hu]
          rw [hres] at hok
          injection hok with hx
          subst hx
          exact ⟨rfl, rfl, rfl, rfl, rfl⟩
        | error e =>
          have hres : machine_handle_endtag s = .error e := by
            simp [machine_handle_endtag, h, hkd, hu]
          rw [hres] at hok
          exact absurd hok (by simp)
      · have hres : machine_handle_endtag s =
            .ok (reset_buffers
              { s with state := .seeking_key
                       course_data := setKey s.course_data s.current_key s.data }) := by
          simp [machine_handle_endtag, h, hkd]
        rw [hres] at hok
        injection hok with hx
        subst hx
        exact ⟨rfl, rfl, rfl, rfl, rfl⟩
    · have hres : machine_handle_endtag s =
          .ok (reset_buffers
            { s with state := .seeking_key
                     student_records := setStudent s.student_records s.current_index
                       s.current_key s.data }) := by
        simp [machine_handle_endtag, h]
      rw [hres] at hok
      injection hok with hx
      subst hx
      exact ⟨rfl, rfl, rfl, rfl, rfl⟩
  · intro h hok
    have hres : machine_handle_attr "img" ("src", p) s =
        .ok { s with state := .seeking_key
                     student_records := setStudent s.student_records s.current_index "photo"
                       (joinPath s.base_dir p) } := by
      simp [machine_handle_attr, h]
    rw [hres] at hok
    injection hok with hx
    subst hx
    exact ⟨rfl, rfl, rfl, rfl, rfl⟩

/-- C9 witness: the student-email commit resets every buffer, while the
concrete `img` step keeps `current_index = 5`. -/
theorem buffers_cleared_on_commit_transitions_witness :
    (afterEmailCommit.state = .seeking_key ∧ afterEmailCommit.data = ""
      ∧ afterEmailCommit.current_key = "" ∧ afterEmailCommit.current_index = 0
      ∧ afterEmailCommit.albert_key = none)
    ∧ afterImgStep.current_index = 5 := by
  have h1 := (buffers_cleared_on_commit_transitions studentEmailState afterEmailCommit "p").1
    (Or.inr rfl) rfl
  have h2 := (buffers_cleared_on_commit_transitions imgWaitState afterImgStep "p.jpg").2
    rfl rfl
  exact ⟨h1, h2.2.2.2.1.trans rfl⟩

/-- Splitting the frameset event loop at a list append. -/
theorem runFrameset_append (files : String → List MEvent) (l₁ l₂ : List MEvent)
    (st : FramesetState) :
    runFrameset files (l₁ ++ l₂) st =
      match runFrameset files l₁ st with
      | .ok st' => runFrameset files l₂ st'
      | .error e => .error e := by
  induction l₁ generalizing st with
  | nil => rfl
  | cons ev l₁ ih =>
    cases ev with
    | start_tag t attrs =>
      simp only [List.cons_append, runFrameset]
      cases h : frameset_handle_starttag files t attrs st with
      | ok st' => exact ih st'
      | error e => rfl
    | text d =>
      simp only [List.cons_append, runFrameset]
      exact ih st
    | entityref n =>
      simp only [List.cons_append, runFrameset]
      exact ih st
    | end_tag =>
      simp only [List.cons_append, runFrameset]
      exact ih st

/-- Events that are not a `TargetContent` frame tag leave the frameset
parser's state untouched. -/
theorem runFrameset_skips_nonmatching (files : String → List MEvent)
    (evs : List MEvent) (st : FramesetState)
    (h : ∀ ev ∈ evs, isTargetFrame ev = false) :
    runFrameset files evs st = .ok st := by
  induction evs with
  | nil => rfl
  | cons ev evs ih =>
    have hrest : ∀ e ∈ evs, isTargetFrame e = false := fun e he => h e (by simp [he])
    cases ev with
    | start_tag t attrs =>
      have hev := h (.start_tag t attrs) (by simp)
      have hne : ¬((t = "frame" ∨ t = "iframe")
          ∧ attrDict attrs "name" = some "TargetContent") := by
        simpa [isTargetFrame] using hev
      have hstep : frameset_handle_starttag files t attrs st = .ok st := by
        simp [frameset_handle_starttag, hne]
      simp only [runFrameset, hstep]
      exact ih hrest
    | text d =>
      simp only [runFrameset]
      exact ih hrest
    | entityref n =>
      simp only [runFrameset]
      exact ih hrest
    | end_tag =>
      simp only [runFrameset]
      exact ih hrest

/-- Once a frame has matched, `handle_starttag` returns immediately on
every later tag, so the rest of the document changes nothing. -/
theorem runFrameset_after_match (files : String → List MEvent)
    (evs : List MEvent) (st : FramesetState)
    (h : st.roster_frame.isSome = true) :
    runFrameset files evs st = .ok st := by
  induction evs with
  | nil => rfl
  | cons ev evs ih =>
    cases ev with
    | start_tag t attrs =>
      have hstep : frameset_handle_starttag files t attrs st = .ok st := by
        simp [frameset_handle_starttag, h]
      simp only [runFrameset, hstep]
      exact ih
    | text d =>
      simp only [runFrameset]
      exact ih
    | entityref n =>
      simp only [runFrameset]
      exact ih
    | end_tag =>
      simp only [runFrameset]
      exact ih

/-- C7: when no `frame`/`iframe` start tag named `TargetContent` occurs in
the frameset document, the parse never produces empty results: the final
access to the never-assigned subparser raises `AttributeError`, which
surfaces to the caller. -/
theorem frameset_missing_target_frame_errors (files : String → List MEvent)
    (infile : String)
    (h : ∀ ev ∈ files infile, isTargetFrame ev = false) :
    framesetParse files infile = .error .attributeError := by
  unfold framesetParse
  rw [runFrameset_skips_nonmatching files (files infile) _ h]

/-- C7 witness: a frame-free document makes the frameset parse fail with
`AttributeError` rather than returning an empty course/student pair. -/
theorem frameset_missing_target_frame_errors_witness :
    framesetParse noFrameFiles "dir/top.html" = .error .attributeError :=
  frameset_missing_target_frame_errors noFrameFiles "dir/top.html" (by decide)

/-- C8: the first `TargetContent` frame wins — whatever follows it,
including further matching frames, is ignored — and the top-level parse
returns exactly the child document's extracted data, the child being parsed
with its own directory (`dirname` of the resolved frame path) as the base
directory for photo resolution. -/
theorem frameset_first_match_delegates (files : String → List MEvent)
    (infile : String) (pre post : List MEvent) (t : String)
    (attrs : List (String × String)) (src : String) (r : RosterData)
    (hdoc : files infile = pre ++ .start_tag t attrs :: post)
    (hpre : ∀ ev ∈ pre, isTargetFrame ev = false)
    (ht : t = "frame" ∨ t = "iframe")
    (hname : attrDict attrs "name" = some "TargetContent")
    (hsrc : attrDict attrs "src" = some src)
    (hchild : albertParse (files (joinPath (dirname infile) src))
        (dirname (joinPath (dirname infile) src)) = .ok r) :
    framesetParse files infile = .ok r := by
  unfold framesetParse
  rw [hdoc, runFrameset_append,
    runFrameset_skips_nonmatching files pre _ hpre]
  have hstep : frameset_handle_starttag files t attrs
      { base_dir := dirname infile, roster_frame := none, subresult := none } =
      .ok { base_dir := dirname infile
            roster_frame := some (joinPath (dirname infile) src)
            subresult := some r } := by
    rcases ht with h | h <;> subst h <;>
      simp [frameset_handle_starttag, hname, hsrc, hchild]
  simp only [runFrameset, hstep]
  have hafter := runFrameset_after_match files post
    { base_dir := dirname infile
      roster_frame := some (joinPath (dirname infile) src)
      subresult := some r } rfl
  rw [hafter]

/-- C8 witness: with two `TargetContent` frames in the top-level document,
the parse uses the first (`sub/child.html`), returns its data, and resolves
the photo against `site/sub`, the child's directory. -/
theorem frameset_first_match_delegates_witness :
    framesetParse framesetFiles "site/top.html" = .ok childFrameResult
    ∧ childFrameResult.2 0 "photo" = some "site/sub/p.jpg" := by
  constructor
  · exact frameset_first_match_delegates framesetFiles "site/top.html"
      [.start_tag "frameset" [("rows", "*")]]
      [.start_tag "frame" [("name", "TargetContent"), ("src", "other.html")]]
      "frame" [("name", "TargetContent"), ("src", "sub/child.html")]
      "sub/child.html" childFrameResult
      rfl (by decide) (Or.inl rfl) rfl rfl rfl
  · rfl
